import Mathlib

/-!
Verification of the fixed-length-bytes Parquet page encoder
(`src/core/rust/qdbr/src/parquet_write/fixed_len_bytes.rs`).

The column is a slice `&[[u8; N]]`, embedded as `List (Fin N → Nat)`:
each row is a byte array of statically known width `N`.  The two external
collaborators (`encode_bool_iter` from `parquet_write::util` and
`build_plain_page`) are repository code that is not part of the sources
under verification; they are modelled from the specification's §6
contracts as abstract functions bundled in a `Collaborators` record.
-/

namespace FixedLenBytes

/-- Modelled from the spec: the target format's page-version tag; two
variants, each with a different validity-encoding scheme
(`options.version` in the source, from `parquet_write::file`). -/
inductive Version : Type
  | v1
  | v2
deriving DecidableEq, Repr

/-- Modelled from the spec: the Write Options configuration record,
"carrying at minimum the target format page-version"
(`WriteOptions` from `parquet_write::file`, not under the sources). -/
structure WriteOptions : Type where
  version : Version
deriving DecidableEq, Repr

/-- The value-encoding scheme tag (`parquet2::encoding::Encoding`);
only the `Plain` tag is used by this core, the other constructors stand
for the remaining schemes of the external format. -/
inductive Encoding : Type
  | plain
  | rle
  | deltaBinaryPacked
deriving DecidableEq, Repr

/-- The page output type (`parquet2::page::Page`): the orchestrator wraps
the assembled data page in the `Data` variant (`.map(Page::Data)`); the
`Dict` variant exists in the external format but is never produced here. -/
inductive Page (DP : Type) : Type
  | Data : DP → Page DP
  | Dict : Page DP
deriving DecidableEq, Repr

/-- The arguments handed to the external Page Assembler
(`build_plain_page(buffer, num_rows, num_values, null_count,
definition_levels_byte_length, statistics, type_, options, encoding)`),
gathered positionally into a record.  Statistics are `Option Unit`
because the orchestrator always passes `None`. -/
structure PageArgs (PT : Type) : Type where
  buffer : List Nat
  num_rows : Nat
  num_values : Nat
  null_count : Nat
  definition_levels_byte_length : Nat
  statistics : Option Unit
  primitive_type : PT
  options : WriteOptions
  encoding : Encoding
deriving DecidableEq, Repr

/-- Modelled from the spec: the two external collaborators of §6, absent
from the sources under verification.
`encode_bool_iter` is the Validity Encoder: it consumes the boolean
validity sequence and the page-version flag and "writes an encoded
definition-level block into a shared output buffer"; it is purely
additive on the buffer, so it is modelled as returning the list of bytes
it appends, or an error.  `build_plain_page` is the Page Assembler:
it takes the finished buffer plus counts/lengths/type metadata and
produces the finished page object or fails. -/
structure Collaborators (PT DP Err : Type) : Type where
  encode_bool_iter : List Bool → Version → Except Err (List Nat)
  build_plain_page : PageArgs PT → Except Err DP

/-- `encode_plain` from the source: append the raw bytes of every row to
the buffer (`data.iter().for_each(|x| buffer.extend_from_slice(x))`). -/
def encode_plain {N : Nat} (data : List (Fin N → Nat)) (buffer : List Nat) :
    List Nat :=
  data.foldl (fun buf x => buf ++ List.ofFn x) buffer

/-- The per-row classification of the `nulls_iterator` closure in
`bytes_to_page`: `if false { null_count += 1; false } else { true }`.
First component is the emitted validity boolean, second the increment to
the running null count. -/
def classify_row {N : Nat} (_x : Fin N → Nat) : Bool × Nat :=
  if false = true then (false, 1) else (true, 0)

/-- The boolean validity sequence produced by `nulls_iterator`. -/
def validity_seq {N : Nat} (data : List (Fin N → Nat)) : List Bool :=
  data.map (fun x => (classify_row x).1)

/-- The null count accumulated by fully consuming `nulls_iterator`. -/
def null_count {N : Nat} (data : List (Fin N → Nat)) : Nat :=
  (data.map (fun x => (classify_row x).2)).sum

/-- `bytes_to_page` from the source: allocate an empty buffer, derive the
validity sequence and capture the row count, run the Validity Encoder
(propagating its error with `?`), record the buffer length as the
definition-levels byte length, append the plain values, and hand
everything to the Page Assembler, wrapping the result as `Page::Data`. -/
def bytes_to_page {N : Nat} {PT DP Err : Type} (C : Collaborators PT DP Err)
    (data : List (Fin N → Nat)) (options : WriteOptions) (type_ : PT) :
    Except Err (Page DP) := do
  let buffer : List Nat := []
  let length := data.length
  let encoded ← C.encode_bool_iter (validity_seq data) options.version
  let buffer := buffer ++ encoded
  let definition_levels_byte_length := buffer.length
  let buffer := encode_plain data buffer
  let page ← C.build_plain_page
    { buffer := buffer
      num_rows := length
      num_values := length
      null_count := null_count data
      definition_levels_byte_length := definition_levels_byte_length
      statistics := none
      primitive_type := type_
      options := options
      encoding := Encoding.plain }
  pure (Page.Data page)

/-- The raw plain-value region of a column: the concatenation of the
`N`-byte representations of the rows, in row order. -/
def plain_values {N : Nat} (data : List (Fin N → Nat)) : List Nat :=
  (data.map (fun x => List.ofFn x)).flatten

/-- The `PageArgs` record that `bytes_to_page` hands to the Page
Assembler once the Validity Encoder has appended `encoded` to the
initially empty buffer (see `bytes_to_page_run`). -/
def page_args {N : Nat} {PT : Type} (data : List (Fin N → Nat))
    (options : WriteOptions) (type_ : PT) (encoded : List Nat) :
    PageArgs PT :=
  { buffer := encode_plain data (([] : List Nat) ++ encoded)
    num_rows := data.length
    num_values := data.length
    null_count := null_count data
    definition_levels_byte_length := (([] : List Nat) ++ encoded).length
    statistics := none
    primitive_type := type_
    options := options
    encoding := Encoding.plain }

theorem classify_row_eq {N : Nat} (x : Fin N → Nat) :
    classify_row x = (true, 0) := rfl

theorem validity_seq_eq {N : Nat} (data : List (Fin N → Nat)) :
    validity_seq data = List.replicate data.length true := by
  simp [validity_seq, classify_row]

theorem null_count_eq {N : Nat} (data : List (Fin N → Nat)) :
    null_count data = 0 := by
  simp [null_count, classify_row]

theorem encode_plain_eq {N : Nat} (data : List (Fin N → Nat))
    (buffer : List Nat) :
    encode_plain data buffer = buffer ++ plain_values data := by
  induction data generalizing buffer with
  | nil => simp [encode_plain, plain_values]
  | cons a l ih =>
      simp [encode_plain, plain_values] at ih ⊢
      simp [ih]

theorem plain_values_length {N : Nat} (data : List (Fin N → Nat)) :
    (plain_values data).length = data.length * N := by
  induction data with
  | nil => simp [plain_values]
  | cons a l ih =>
      simp [plain_values] at ih ⊢
      simp [ih]
      ring

/-- `bytes_to_page` written without the do-notation: the Validity
Encoder's result is bound, on success the Page Assembler is applied to
exactly `page_args`, and its result is wrapped with `Page.Data`. -/
theorem bytes_to_page_def {N : Nat} {PT DP Err : Type}
    (C : Collaborators PT DP Err) (data : List (Fin N → Nat))
    (options : WriteOptions) (type_ : PT) :
    bytes_to_page C data options type_ =
      (C.encode_bool_iter (validity_seq data) options.version).bind
        (fun encoded =>
          (C.build_plain_page (page_args data options type_ encoded)).bind
            (fun p => Except.ok (Page.Data p))) := rfl

/-- If the Validity Encoder fails, `bytes_to_page` is that very error. -/
theorem bytes_to_page_enc_error {N : Nat} {PT DP Err : Type}
    (C : Collaborators PT DP Err) (data : List (Fin N → Nat))
    (options : WriteOptions) (type_ : PT) (e : Err)
    (h : C.encode_bool_iter (validity_seq data) options.version
      = Except.error e) :
    bytes_to_page C data options type_ = Except.error e := by
  rw [bytes_to_page_def, h]
  rfl

/-- If the Validity Encoder appends `encoded`, `bytes_to_page` is the
Page Assembler applied to exactly `page_args`, wrapped with
`Page.Data`. -/
theorem bytes_to_page_enc_ok {N : Nat} {PT DP Err : Type}
    (C : Collaborators PT DP Err) (data : List (Fin N → Nat))
    (options : WriteOptions) (type_ : PT) (encoded : List Nat)
    (h : C.encode_bool_iter (validity_seq data) options.version
      = Except.ok encoded) :
    bytes_to_page C data options type_ =
      (C.build_plain_page (page_args data options type_ encoded)).bind
        (fun p => Except.ok (Page.Data p)) := by
  rw [bytes_to_page_def, h]
  rfl

/-- The spec's scenario column: three 4-byte rows
`[01 02 03 04]`, `[05 06 07 08]`, `[09 0A 0B 0C]`. -/
def scenario_data : List (Fin 4 → Nat) :=
  [![1, 2, 3, 4], ![5, 6, 7, 8], ![9, 10, 11, 12]]

/-- A second column of the same shape as `scenario_data` but with
different row contents, for contrasting runs. -/
def scenario_data2 : List (Fin 4 → Nat) :=
  [![255, 254, 253, 252], ![0, 0, 0, 0], ![17, 17, 17, 17]]

/-- Concrete executable collaborators for evaluating the pipeline: the
Validity Encoder appends one byte per boolean (1 for `true`, 0 for
`false`) and the Page Assembler succeeds, returning its argument record
as the page. -/
def demoC : Collaborators Unit (PageArgs Unit) Nat :=
  { encode_bool_iter := fun v _ =>
      Except.ok (v.map (fun b => if b then 1 else 0))
    build_plain_page := fun args => Except.ok args }

/-- Concrete collaborators whose Validity Encoder always fails with
error code 7. -/
def failEncC : Collaborators Unit (PageArgs Unit) Nat :=
  { encode_bool_iter := fun _ _ => Except.error 7
    build_plain_page := fun args => Except.ok args }

/-- Concrete collaborators whose Validity Encoder succeeds (one byte per
boolean) but whose Page Assembler always fails with error code 9. -/
def failBuildC : Collaborators Unit (PageArgs Unit) Nat :=
  { encode_bool_iter := fun v _ =>
      Except.ok (v.map (fun b => if b then 1 else 0))
    build_plain_page := fun _ => Except.error 9 }

/-- C1: the Validity Deriver reports every row as non-null (an
all-`true` validity sequence), the accumulated null count is zero, and
the validity sequence has one boolean per row — its length is the
column length. -/
theorem validity_deriver_all_valid {N : Nat} (data : List (Fin N → Nat)) :
    validity_seq data = List.replicate data.length true ∧
    null_count data = 0 ∧
    (validity_seq data).length = data.length := by
  refine ⟨validity_seq_eq data, null_count_eq data, ?_⟩
  simp [validity_seq]

/-- C2: for a column of length `L` and row width `N`, the plain-value
region of the buffer handed to the Page Assembler (everything past the
definition-levels block) has length `non_null_count * N` bytes and
`non_null_count + null_count = L`, where `non_null_count` (the
`num_values` field) and `null_count` are the counts `bytes_to_page`
hands to the Page Assembler in `page_args`. -/
theorem plain_region_and_counts {N : Nat} {PT DP Err : Type}
    (C : Collaborators PT DP Err) (data : List (Fin N → Nat))
    (options : WriteOptions) (type_ : PT) (encoded : List Nat)
    (henc : C.encode_bool_iter (validity_seq data) options.version
      = Except.ok encoded) :
    bytes_to_page C data options type_ =
      (C.build_plain_page (page_args data options type_ encoded)).bind
        (fun p => Except.ok (Page.Data p)) ∧
    (page_args data options type_ encoded).buffer.length
      = (page_args data options type_ encoded).definition_levels_byte_length
        + (page_args data options type_ encoded).num_values * N ∧
    (page_args data options type_ encoded).num_values
      + (page_args data options type_ encoded).null_count = data.length := by
  refine ⟨bytes_to_page_enc_ok C data options type_ encoded henc, ?_, ?_⟩
  · simp [page_args, encode_plain_eq, plain_values_length]
  · simp [page_args, null_count_eq]

/-- Witness for `plain_region_and_counts`: the Validity Encoder of
`demoC` appends `[1, 1, 1]` on the scenario column, and the counts
handed to the Page Assembler sum to the column length 3. -/
theorem plain_region_and_counts_witness :
    demoC.encode_bool_iter (validity_seq scenario_data)
        (WriteOptions.mk Version.v1).version = Except.ok [1, 1, 1] ∧
    (page_args scenario_data (WriteOptions.mk Version.v1) () [1, 1, 1]).num_values
      + (page_args scenario_data (WriteOptions.mk Version.v1) () [1, 1, 1]).null_count
      = scenario_data.length :=
  ⟨rfl,
   (plain_region_and_counts demoC scenario_data (WriteOptions.mk Version.v1)
      () [1, 1, 1] rfl).2.2⟩

/-- C3: the definition-levels byte length handed to the Page Assembler
equals exactly the number of bytes the Validity Encoder appended to the
initially empty buffer — the buffer length recorded immediately after
the encoder call and before any value encoding. -/
theorem validity_block_length_accounting {N : Nat} {PT DP Err : Type}
    (C : Collaborators PT DP Err) (data : List (Fin N → Nat))
    (options : WriteOptions) (type_ : PT) (encoded : List Nat)
    (henc : C.encode_bool_iter (validity_seq data) options.version
      = Except.ok encoded) :
    bytes_to_page C data options type_ =
      (C.build_plain_page (page_args data options type_ encoded)).bind
        (fun p => Except.ok (Page.Data p)) ∧
    (page_args data options type_ encoded).definition_levels_byte_length
      = encoded.length := by
  exact ⟨bytes_to_page_enc_ok C data options type_ encoded henc,
    by simp [page_args]⟩

/-- Witness for `validity_block_length_accounting`: on the scenario
column the encoder of `demoC` appends three bytes and the reported
definition-levels byte length is 3. -/
theorem validity_block_length_accounting_witness :
    demoC.encode_bool_iter (validity_seq scenario_data)
        (WriteOptions.mk Version.v2).version = Except.ok [1, 1, 1] ∧
    (page_args scenario_data (WriteOptions.mk Version.v2) ()
        [1, 1, 1]).definition_levels_byte_length = 3 :=
  ⟨rfl,
   (validity_block_length_accounting demoC scenario_data
      (WriteOptions.mk Version.v2) () [1, 1, 1] rfl).2⟩

/-- C4: `encode_plain` appends exactly the concatenation of the raw
`N`-byte representations of the rows in row order — no separators, no
length prefixes, no transformation; on the spec's scenario column of
three 4-byte values the value region is the 12-byte concatenation of
the three arrays in order and the null count is 0. -/
theorem encode_plain_concat :
    (∀ (N : Nat) (data : List (Fin N → Nat)) (buffer : List Nat),
        encode_plain data buffer
          = buffer ++ (data.map (fun x => List.ofFn x)).flatten) ∧
    encode_plain scenario_data []
      = [1, 2, 3, 4, 5, 6, 7, 8, 9, 10, 11, 12] ∧
    null_count scenario_data = 0 := by
  refine ⟨?_, ?_, ?_⟩
  · intro N data buffer
    simpa [plain_values] using encode_plain_eq data buffer
  · decide
  · decide

/-- C5: on the success path `bytes_to_page` hands the Page Assembler
exactly the shared buffer (validity block then plain values), a total
row count equal to the column length, a non-null count equal to that
same row count, the accumulated null count, the recorded
validity-block byte length, no statistics, the given type descriptor,
the given options and the Plain encoding tag, and wraps the assembled
page as the data-page variant. -/
theorem success_path_assembler_args {N : Nat} {PT DP Err : Type}
    (C : Collaborators PT DP Err) (data : List (Fin N → Nat))
    (options : WriteOptions) (type_ : PT) (encoded : List Nat) (p : DP)
    (henc : C.encode_bool_iter (validity_seq data) options.version
      = Except.ok encoded)
    (hbuild : C.build_plain_page (page_args data options type_ encoded)
      = Except.ok p) :
    bytes_to_page C data options type_ = Except.ok (Page.Data p) ∧
    page_args data options type_ encoded =
      { buffer := encoded ++ plain_values data
        num_rows := data.length
        num_values := data.length
        null_count := null_count data
        definition_levels_byte_length := encoded.length
        statistics := none
        primitive_type := type_
        options := options
        encoding := Encoding.plain } := by
  constructor
  · rw [bytes_to_page_enc_ok C data options type_ encoded henc, hbuild]
    rfl
  · simp [page_args, encode_plain_eq]

/-- Witness for `success_path_assembler_args`: running the pipeline on
the scenario column with the `demoC` collaborators succeeds and wraps
the assembler's page in the data-page variant. -/
theorem success_path_assembler_args_witness :
    bytes_to_page demoC scenario_data (WriteOptions.mk Version.v1) ()
      = Except.ok (Page.Data
          (page_args scenario_data (WriteOptions.mk Version.v1) () [1, 1, 1])) :=
  (success_path_assembler_args demoC scenario_data (WriteOptions.mk Version.v1)
    () [1, 1, 1]
    (page_args scenario_data (WriteOptions.mk Version.v1) () [1, 1, 1])
    rfl rfl).1

/-- C6: `bytes_to_page` fails exactly when the Validity Encoder or the
Page Assembler fails, and the failing collaborator's error value is
propagated unchanged — no local recovery, no retry, no substitute
result; no other step of the pipeline can produce an error. -/
theorem error_iff_collaborator_error {N : Nat} {PT DP Err : Type}
    (C : Collaborators PT DP Err) (data : List (Fin N → Nat))
    (options : WriteOptions) (type_ : PT) (e : Err) :
    bytes_to_page C data options type_ = Except.error e ↔
      (C.encode_bool_iter (validity_seq data) options.version
        = Except.error e ∨
       ∃ encoded, C.encode_bool_iter (validity_seq data) options.version
           = Except.ok encoded ∧
         C.build_plain_page (page_args data options type_ encoded)
           = Except.error e) := by
  constructor
  · intro h
    cases hE : C.encode_bool_iter (validity_seq data) options.version with
    | error e2 =>
        left
        rw [bytes_to_page_enc_error C data options type_ e2 hE] at h
        injection h with he
        rw [he]
    | ok encoded =>
        right
        refine ⟨encoded, rfl, ?_⟩
        rw [bytes_to_page_enc_ok C data options type_ encoded hE] at h
        cases hB : C.build_plain_page (page_args data options type_ encoded) with
        | error e2 =>
            rw [hB] at h
            have h2 : (Except.error e2 : Except Err (Page DP))
                = Except.error e := h
            injection h2 with he
            rw [he]
        | ok p =>
            rw [hB] at h
            have h2 : (Except.ok (Page.Data p) : Except Err (Page DP))
                = Except.error e := h
            simp at h2
  · intro h
    rcases h with hE | ⟨encoded, hE, hB⟩
    · exact bytes_to_page_enc_error C data options type_ e hE
    · rw [bytes_to_page_enc_ok C data options type_ encoded hE, hB]
      rfl

/-- Witness for `error_iff_collaborator_error`: a failing Validity
Encoder propagates its error code 7, and a failing Page Assembler
propagates its error code 9, on the scenario column. -/
theorem error_iff_collaborator_error_witness :
    bytes_to_page failEncC scenario_data (WriteOptions.mk Version.v1) ()
      = Except.error 7 ∧
    bytes_to_page failBuildC scenario_data (WriteOptions.mk Version.v1) ()
      = Except.error 9 :=
  ⟨(error_iff_collaborator_error failEncC scenario_data
      (WriteOptions.mk Version.v1) () 7).mpr (Or.inl rfl),
   (error_iff_collaborator_error failBuildC scenario_data
      (WriteOptions.mk Version.v1) () 9).mpr
     (Or.inr ⟨[1, 1, 1], rfl, rfl⟩)⟩

/-- C7: for an empty column, whenever the Validity Encoder and the Page
Assembler succeed on the inputs they receive, `bytes_to_page` returns a
successful data page (not an error) whose metadata records zero total
rows, zero non-null values and zero nulls, with the validity-block
byte length of whatever (possibly empty) block the encoder wrote. -/
theorem empty_column_ok {N : Nat} {PT DP Err : Type}
    (C : Collaborators PT DP Err) (options : WriteOptions) (type_ : PT)
    (encoded : List Nat) (p : DP)
    (henc : C.encode_bool_iter (validity_seq ([] : List (Fin N → Nat)))
        options.version = Except.ok encoded)
    (hbuild : C.build_plain_page
        (page_args ([] : List (Fin N → Nat)) options type_ encoded)
      = Except.ok p) :
    bytes_to_page C ([] : List (Fin N → Nat)) options type_
      = Except.ok (Page.Data p) ∧
    (page_args ([] : List (Fin N → Nat)) options type_ encoded).num_rows
      = 0 ∧
    (page_args ([] : List (Fin N → Nat)) options type_ encoded).num_values
      = 0 ∧
    (page_args ([] : List (Fin N → Nat)) options type_ encoded).null_count
      = 0 ∧
    (page_args ([] : List (Fin N → Nat)) options type_
        encoded).definition_levels_byte_length = encoded.length := by
  refine ⟨?_, by simp [page_args], by simp [page_args],
    by simp [page_args, null_count], by simp [page_args]⟩
  rw [bytes_to_page_enc_ok C [] options type_ encoded henc, hbuild]
  rfl

/-- Witness for `empty_column_ok`: the pipeline on the empty column of
width 4 with the `demoC` collaborators succeeds with an empty validity
block and all-zero counts. -/
theorem empty_column_ok_witness :
    bytes_to_page demoC ([] : List (Fin 4 → Nat))
        (WriteOptions.mk Version.v1) ()
      = Except.ok (Page.Data (page_args ([] : List (Fin 4 → Nat))
          (WriteOptions.mk Version.v1) () [])) ∧
    (page_args ([] : List (Fin 4 → Nat)) (WriteOptions.mk Version.v1) ()
        []).num_rows = 0 :=
  ⟨(empty_column_ok demoC (WriteOptions.mk Version.v1) () [] _ rfl rfl).1,
   (empty_column_ok demoC (WriteOptions.mk Version.v1) () []
      (page_args ([] : List (Fin 4 → Nat)) (WriteOptions.mk Version.v1) () [])
      rfl rfl).2.1⟩

/-- C8: `bytes_to_page` is deterministic — two invocations with equal
collaborators, column, options and type-descriptor inputs return equal
results and build byte-identical buffers for the Page Assembler; in
this embedding the operation is a pure function, so it has no effect
beyond the returned value. -/
theorem bytes_to_page_deterministic {N : Nat} {PT DP Err : Type}
    (C C' : Collaborators PT DP Err) (data data' : List (Fin N → Nat))
    (options options' : WriteOptions) (type_ type_' : PT)
    (hC : C = C') (hd : data = data') (ho : options = options')
    (ht : type_ = type_') :
    bytes_to_page C data options type_
      = bytes_to_page C' data' options' type_' ∧
    ∀ encoded : List Nat,
      (page_args data options type_ encoded).buffer
        = (page_args data' options' type_' encoded).buffer := by
  subst hC
  subst hd
  subst ho
  subst ht
  exact ⟨rfl, fun _ => rfl⟩

/-- Witness for `bytes_to_page_deterministic`: two runs on the scenario
column with the `demoC` collaborators agree. -/
theorem bytes_to_page_deterministic_witness :
    bytes_to_page demoC scenario_data (WriteOptions.mk Version.v1) ()
      = bytes_to_page demoC scenario_data (WriteOptions.mk Version.v1) () :=
  (bytes_to_page_deterministic demoC demoC scenario_data scenario_data
    (WriteOptions.mk Version.v1) (WriteOptions.mk Version.v1) () ()
    rfl rfl rfl rfl).1

/-- C9: the Value Encoder is purely additive on the shared buffer — the
prior contents survive unchanged as a prefix of the buffer after
`encode_plain` (it never truncates or rewinds) — so in the buffer
handed to the Page Assembler the validity-block bytes come first and
the plain values follow them in fixed order. -/
theorem value_encoder_additive {N : Nat} (data : List (Fin N → Nat)) :
    (∀ buffer : List Nat, ∃ appended : List Nat,
        encode_plain data buffer = buffer ++ appended) ∧
    ∀ (PT : Type) (options : WriteOptions) (type_ : PT)
      (encoded : List Nat),
      (page_args data options type_ encoded).buffer
        = encoded ++ plain_values data := by
  constructor
  · intro buffer
    exact ⟨plain_values data, encode_plain_eq data buffer⟩
  · intro PT options type_ encoded
    simp [page_args, encode_plain_eq]

/-- C10: validity classification ignores row contents — for two columns
of the same length and the same width, under the same options, the
validity sequence, the Validity Encoder's output (the validity-block
bytes), the null count, the row count, the non-null count and the
definition-levels byte length handed to the Page Assembler all
coincide; only the plain-value region can differ. -/
theorem validity_ignores_contents {N : Nat} {PT DP Err : Type}
    (C : Collaborators PT DP Err) (d1 d2 : List (Fin N → Nat))
    (options : WriteOptions) (type_ : PT)
    (hlen : d1.length = d2.length) :
    validity_seq d1 = validity_seq d2 ∧
    null_count d1 = null_count d2 ∧
    C.encode_bool_iter (validity_seq d1) options.version
      = C.encode_bool_iter (validity_seq d2) options.version ∧
    ∀ encoded : List Nat,
      (page_args d1 options type_ encoded).num_rows
        = (page_args d2 options type_ encoded).num_rows ∧
      (page_args d1 options type_ encoded).num_values
        = (page_args d2 options type_ encoded).num_values ∧
      (page_args d1 options type_ encoded).null_count
        = (page_args d2 options type_ encoded).null_count ∧
      (page_args d1 options type_ encoded).definition_levels_byte_length
        = (page_args d2 options type_ encoded).definition_levels_byte_length := by
  have hv : validity_seq d1 = validity_seq d2 := by
    rw [validity_seq_eq, validity_seq_eq, hlen]
  refine ⟨hv, by rw [null_count_eq, null_count_eq], by rw [hv], ?_⟩
  intro encoded
  refine ⟨?_, ?_, ?_, ?_⟩ <;> simp [page_args, hlen, null_count_eq]

/-- Witness for `validity_ignores_contents`: the scenario column and a
column with entirely different contents but the same shape get the same
validity sequence. -/
theorem validity_ignores_contents_witness :
    validity_seq scenario_data = validity_seq scenario_data2 :=
  (validity_ignores_contents demoC scenario_data scenario_data2
    (WriteOptions.mk Version.v1) () rfl).1

end FixedLenBytes
